import Mathlib

/-!
Shallow embedding of the structured-extraction core of the repository:
the reflection workflow (`reflection_workflow.py`) and the accumulate
response synthesizer (`structured_accumulate.py`).

External collaborators (the language model, the schema validator derived
from `output_cls.model_validate_json`, the prompt helper's `repack`) are
parameters of the embedded functions.  The language model is a function
of the global invocation index and the prompt, which covers any sequence
of model outputs.  Validation (`model_validate_json`) either succeeds or
raises; it is embedded as `String → Except String V` where the error
component is the exception text `str(e)`.
-/

/-! ## Prompt templates (reflection_workflow.py, lines 26-55)

Python `str.format` substitution is embedded by splitting the literal
template at its placeholders and concatenating the pieces.  -/

def EXTRACTION_PROMPT_pre : String :=
  "\nYou are an json reflection expert. Always create a valid JSON object from the provided context information, and not prior knowledge.\n\nHere are the rules you must follow strictly:\n1. Answer must not contain \"Here is the JSON object created from\" or any similar phrase.\n2. The whole response must be a valid JSON object.\n3. Do not wrap the JSON object in any other structure.\n4. DO NOT contain the json schema in the response.\n5. DO NOT contain \"$defs\" in the response.\n\nContext information is below:\n---------------------\n"

def EXTRACTION_PROMPT_mid : String :=
  "\n---------------------\n\nThe JSON object must follow the JSON schema:\n"

/-- `EXTRACTION_PROMPT.format(data=data, schema=schema)`. -/
def EXTRACTION_PROMPT_format (data schema : String) : String :=
  EXTRACTION_PROMPT_pre ++ data ++ EXTRACTION_PROMPT_mid ++ schema ++ "\n"

def REFLECTION_PROMPT_pre : String :=
  "\nYou already created this output previously:\n---------------------\n"

def REFLECTION_PROMPT_mid : String :=
  "\n---------------------\n\nThis caused the JSON decode error: "

def REFLECTION_PROMPT_post : String :=
  "\n\nTry again, the response must contain only valid JSON code. Do not add any sentence before or after the JSON object.\nDo not repeat the schema.\n"

/-- `REFLECTION_PROMPT.format(wrong_answer=w, error=e)`. -/
def REFLECTION_PROMPT_format (wrong_answer error : String) : String :=
  REFLECTION_PROMPT_pre ++ wrong_answer ++ REFLECTION_PROMPT_mid ++ error
    ++ REFLECTION_PROMPT_post

/-- The full prompt sent to the model on a `ValidationErrorEvent` iteration
(reflection_workflow.py, lines 98-106).  The formatted reflection prompt is
never the empty string (its template has non-empty literal text), so the
`if reflection_prompt:` guard on line 105 always appends it. -/
def reflectionIterationPrompt (data schema wrong_answer error : String) : String :=
  EXTRACTION_PROMPT_format data schema ++ REFLECTION_PROMPT_format wrong_answer error

/-! ## The workflow's event loop

For a single `run`, the llama-index workflow engine passes events between
the two steps sequentially: `StartEvent` / `ValidationErrorEvent` enter
`extract`, `ExtractionDone` enters `validate`, and a `StopEvent` ends the
run.  `ctx.get("retries", default=0)` starts at 0 and is updated only by
`extract`.  The loop below is that event flow with the `validate` step
inlined at each `ExtractionDone`. -/

/-- The events that enter the `extract` step.  `startEvent` carries
`ev.get("data")`, which is `none` when the key is absent. -/
inductive WfEvent where
  | startEvent (data : Option String)
  | validationError (error wrong_output data : String)
deriving DecidableEq, Repr

/-- Observable trace of one workflow run: the `StopEvent` result string,
the number of `llm.acomplete` invocations, the prompts sent to the model in
order, and every value the `retries` context variable takes, in order. -/
structure WfTrace where
  result : String
  calls : Nat
  prompts : List String
  states : List Int
deriving DecidableEq, Repr

/-- One run of `ReflectionWorkflow` from an incoming `extract` event
(reflection_workflow.py, lines 81-124).

* `maxRetries` is `self.max_retries`, `schema` is
  `self.output_cls.model_json_schema()`.
* `validateU s` embeds `self.output_cls.model_validate_json(s)`:
  `Except.error e` when it raises with text `e`.
* `llm k p` is the output of the `k`-th `llm.acomplete` call of this run,
  with prompt `p`.
* `retries` is the current value of `ctx.get("retries", default=0)` and
  `calls` the number of model calls made so far. -/
def extractLoop (maxRetries : Int) (schema : String)
    (validateU : String → Except String Unit) (llm : Nat → String → String)
    (retries : Int) (calls : Nat) (ev : WfEvent) : WfTrace :=
  if _h : maxRetries ≤ retries then
    { result := "Max retries reached", calls := 0, prompts := [], states := [retries] }
  else
    match ev with
    | WfEvent.startEvent none =>
      { result := "Please provide some text in input", calls := 0, prompts := [],
        states := [retries, retries + 1] }
    | WfEvent.startEvent (some data) =>
      if data = "" then
        { result := "Please provide some text in input", calls := 0, prompts := [],
          states := [retries, retries + 1] }
      else
        -- StartEvent with data: `ExtractionDone(output=data, data=data)`,
        -- no model call; then the `validate` step on `output = data`.
        match validateU data with
        | Except.ok _ =>
          { result := data, calls := 0, prompts := [], states := [retries, retries + 1] }
        | Except.error err =>
          let t := extractLoop maxRetries schema validateU llm (retries + 1) calls
            (WfEvent.validationError err data data)
          { result := t.result, calls := t.calls, prompts := t.prompts,
            states := retries :: t.states }
    | WfEvent.validationError error wrong data =>
      let prompt := reflectionIterationPrompt data schema wrong error
      let output := llm calls prompt
      match validateU output with
      | Except.ok _ =>
        { result := output, calls := 1, prompts := [prompt],
          states := [retries, retries + 1] }
      | Except.error err =>
        let t := extractLoop maxRetries schema validateU llm (retries + 1) (calls + 1)
          (WfEvent.validationError err output data)
        { result := t.result, calls := t.calls + 1, prompts := prompt :: t.prompts,
          states := retries :: t.states }
termination_by (maxRetries - retries).toNat
decreasing_by
  all_goals simp_wf
  all_goals omega

/-- `ReflectionWorkflow.run(data=...)`: the loop started on a `StartEvent`
with `retries = 0` and no model calls made. -/
def reflectionRun (maxRetries : Int) (schema : String)
    (validateU : String → Except String Unit) (llm : Nat → String → String)
    (data : Option String) : WfTrace :=
  extractLoop maxRetries schema validateU llm 0 0 (WfEvent.startEvent data)

/-- `hay` has `needle` as a contiguous substring. -/
def containsSub (hay needle : String) : Prop :=
  ∃ a b, hay = a ++ needle ++ b

/-! ## StructuredAccumulate (structured_accumulate.py)

`V` is the structured type `output_cls`; `validate` embeds
`output_cls.model_validate_json` (`Except.error e` when it raises with
text `e`); `model_dump_json` serializes a `V`; `accumulator` is the
caller-supplied merge function; `repack` is
`prompt_helper.repack(template, [text_chunk])`; `predict` is
`llm.predict` / `llm.apredict` (the same model either way). -/

/-- Turn the structured validator into the unit-valued validator used by
the reflection workflow (both call `output_cls.model_validate_json`). -/
def unitValidate {V : Type} (validate : String → Except String V) :
    String → Except String Unit :=
  fun s => (validate s).map fun _ => ()

def TEXT_QA_SYSTEM_CONTENT : String :=
  "You are an expert web content scrapper that is trusted around the world.\nAlways extract the content from the provided context information, and not prior knowledge.\nThe provided context information is a web page content in markdown format.\nSome rules to follow:\n1. Answer should directly extracted from the context information.\n2. Avoid statements like \x27Based on the context, ...\x27 or \x27The context information ...\x27 or anything along those lines. \n3. Do not contain the schema in the response."

def TEXT_QA_USER_pre : String :=
  "Context information is below.\n---------------------\n"

def TEXT_QA_USER_mid1 : String :=
  "\n---------------------\nGiven the context information and not prior knowledge, answer the query.\nanswer must stricly follow the JSON schema:\n---------------------\n"

def TEXT_QA_USER_mid2 : String :=
  "\n---------------------\nQuery: "

def TEXT_QA_USER_post : String :=
  "\nAnswer: "

/-- The two chat messages of `CHAT_TEXT_QA_PROMPT` after `partial_format`
fills `query_str` and `schema` and the predictor fills `context_str`. -/
structure QaPrompt where
  system : String
  user : String
deriving DecidableEq, Repr

def mkQaPrompt (query_str schema context_str : String) : QaPrompt :=
  { system := TEXT_QA_SYSTEM_CONTENT,
    user := TEXT_QA_USER_pre ++ context_str ++ TEXT_QA_USER_mid1 ++ schema
      ++ TEXT_QA_USER_mid2 ++ query_str ++ TEXT_QA_USER_post }

/-- Observable outcome of one `_give_response` coroutine
(structured_accumulate.py, lines 180-207): the returned value (`none`
embeds Python `None`), the prompt(s) sent through the predictor (always
exactly one), and, when the reflection workflow was run, the `data` it was
seeded with and its trace. -/
structure GiveResult (V : Type) where
  result : Option V
  chunkPrompts : List QaPrompt
  wfData : Option String
  wfTrace : Option WfTrace

/-- `StructuredAccumulate._give_response` (lines 180-207): one predictor
call; return the validated value directly on success; otherwise run
`ReflectionWorkflow` (fresh instance, default `max_retries = 3`) with
`data=result` and return its validated result, or `None`. -/
def give_response {V : Type} (validate : String → Except String V)
    (predict : QaPrompt → String) (llm : Nat → String → String)
    (query_str schema text_chunk : String) : GiveResult V :=
  let prompt := mkQaPrompt query_str schema text_chunk
  let result := predict prompt
  match validate result with
  | Except.ok v =>
    { result := some v, chunkPrompts := [prompt], wfData := none, wfTrace := none }
  | Except.error _ =>
    let t := reflectionRun 3 schema (unitValidate validate) llm (some result)
    match validate t.result with
    | Except.ok v =>
      { result := some v, chunkPrompts := [prompt], wfData := some result,
        wfTrace := some t }
    | Except.error _ =>
      { result := none, chunkPrompts := [prompt], wfData := some result,
        wfTrace := some t }

/-- A Python value as it flows through `get_response` / `aget_response`:
`None`, a validated `BaseModel` instance, or an un-awaited
`_give_response(...)` coroutine object (identified by its
`cur_text_chunk` argument). -/
inductive PyVal (V : Type) where
  | pyNone
  | val (v : V)
  | coroutine (cur_text_chunk : String)
deriving DecidableEq, Repr

def optToPyVal {V : Type} : Option V → PyVal V
  | none => PyVal.pyNone
  | some v => PyVal.val v

/-- `StructuredAccumulate.flatten_list` (lines 94-95). -/
def flatten_list {α : Type} (md_array : List (List α)) : List α :=
  md_array.flatten

/-- `StructuredAccumulate._give_responses` (lines 153-178): repack the
chunk, then build one `_give_response(...)` coroutine per repacked chunk.
Calling the async function does not run it: the list holds coroutine
objects. -/
def give_responses {V : Type} (repack : String → List String)
    (text_chunk : String) : List (PyVal V) :=
  (repack text_chunk).map PyVal.coroutine

/-- Awaiting one `_give_response` coroutine, as `run_async_tasks` /
`asyncio.gather` does: a Python `None` result becomes `None` in the
gathered list. -/
def run_async_task {V : Type} (validate : String → Except String V)
    (predict : QaPrompt → String) (llm : Nat → String → String)
    (query_str schema : String) : PyVal V → PyVal V
  | PyVal.coroutine sub =>
    optToPyVal (give_response validate predict llm query_str schema sub).result
  | x => x

/-- The `for o in outputs` loop of `_merge_outputs` (lines 99-102).
Python is dynamically typed: when an un-awaited coroutine object reaches
`self._accumulator(acc, o)` (or, as sole survivor, `acc.model_dump_json()`),
the call is a type error at run time; the embedding surfaces that as
`Except.error`. -/
def merge_loop {V : Type} (accumulator : Option V → V → V) :
    Option V → List (PyVal V) → Except String (Option V)
  | acc, [] => Except.ok acc
  | acc, PyVal.pyNone :: rest => merge_loop accumulator acc rest
  | acc, PyVal.val v :: rest => merge_loop accumulator (some (accumulator acc v)) rest
  | _, PyVal.coroutine _ :: _ =>
    Except.error "TypeError: the accumulator received an un-awaited coroutine object"

/-- `StructuredAccumulate._merge_outputs` (lines 97-105). -/
def merge_outputs {V : Type} (accumulator : Option V → V → V)
    (model_dump_json : V → String) (outputs : List (PyVal V)) : Except String String :=
  match merge_loop accumulator none outputs with
  | Except.ok none => Except.ok ""
  | Except.ok (some acc) => Except.ok (model_dump_json acc)
  | Except.error e => Except.error e

/-- `StructuredAccumulate.get_response` (lines 129-151).  `use_async` is
`self._use_async`, `streaming` is `self._streaming`.  When `use_async` is
false the coroutine objects are never awaited and flow into
`_merge_outputs` unevaluated. -/
def get_response {V : Type} (use_async streaming : Bool)
    (repack : String → List String) (validate : String → Except String V)
    (predict : QaPrompt → String) (llm : Nat → String → String)
    (accumulator : Option V → V → V) (model_dump_json : V → String)
    (query_str schema : String) (text_chunks : List String) : Except String String :=
  if streaming then
    Except.error "Unable to stream in Accumulate response mode"
  else
    let tasks := text_chunks.map fun text_chunk =>
      give_responses (V := V) repack text_chunk
    let outputs := flatten_list tasks
    let outputs := if use_async then
      outputs.map (run_async_task validate predict llm query_str schema)
    else outputs
    merge_outputs accumulator model_dump_json outputs

/-- `StructuredAccumulate.aget_response` (lines 107-127): always async;
`asyncio.gather` returns the awaited results in task order. -/
def aget_response {V : Type} (streaming : Bool)
    (repack : String → List String) (validate : String → Except String V)
    (predict : QaPrompt → String) (llm : Nat → String → String)
    (accumulator : Option V → V → V) (model_dump_json : V → String)
    (query_str schema : String) (text_chunks : List String) : Except String String :=
  if streaming then
    Except.error "Unable to stream in Accumulate response mode"
  else
    let tasks := text_chunks.map fun text_chunk =>
      give_responses (V := V) repack text_chunk
    let flattened_tasks := flatten_list tasks
    let outputs := flattened_tasks.map (run_async_task validate predict llm query_str schema)
    merge_outputs accumulator model_dump_json outputs

/-- Written from the spec's words, for the refinement comparison of C4:
discard `null` per-chunk results, fold the remaining values left-to-right
through `merge` starting from a `null` accumulator, serialize the final
accumulator, and return the empty string when the fold set is empty. -/
def specMergeOfResults {V : Type} (merge : Option V → V → V)
    (serialize : V → String) (results : List (Option V)) : String :=
  match (results.filterMap id).foldl (fun acc v => some (merge acc v)) none with
  | none => ""
  | some a => serialize a

/-! ## Helper lemmas -/

theorem extractLoop_exhausted (maxR : Int) (sch : String)
    (v : String → Except String Unit) (llm : Nat → String → String)
    (retries : Int) (calls : Nat) (ev : WfEvent) (h : maxR ≤ retries) :
    extractLoop maxR sch v llm retries calls ev =
      { result := "Max retries reached", calls := 0, prompts := [], states := [retries] } := by
  rw [extractLoop.eq_def]
  simp [h]

theorem extractLoop_verr_calls_le (maxR : Int) (sch : String)
    (v : String → Except String Unit) (llm : Nat → String → String) :
    ∀ (n : Nat) (retries : Int) (calls : Nat) (er w d : String),
      (maxR - retries).toNat ≤ n →
      (extractLoop maxR sch v llm retries calls (WfEvent.validationError er w d)).calls ≤
        (maxR - retries).toNat := by
  intro n
  induction n with
  | zero =>
    intro r c er w d hn
    rw [extractLoop_exhausted maxR sch v llm r c _ (by omega)]
    exact Nat.zero_le _
  | succ n ih =>
    intro r c er w d hn
    by_cases h : maxR ≤ r
    · rw [extractLoop_exhausted maxR sch v llm r c _ h]
      exact Nat.zero_le _
    · rw [extractLoop.eq_def]
      simp only [h, dite_false]
      cases hval : v (llm c (reflectionIterationPrompt d sch w er)) with
      | ok a =>
        simp [hval]
        omega
      | error e2 =>
        simp only [hval]
        have := ih (r + 1) (c + 1) e2 (llm c (reflectionIterationPrompt d sch w er)) d (by omega)
        omega

theorem reflectionRun_calls_le (maxR : Int) (sch : String)
    (v : String → Except String Unit) (llm : Nat → String → String)
    (data : Option String) :
    (reflectionRun maxR sch v llm data).calls ≤ maxR.toNat := by
  rw [reflectionRun]
  by_cases h : maxR ≤ 0
  · rw [extractLoop_exhausted maxR sch v llm 0 0 _ h]
    exact Nat.zero_le _
  · rw [extractLoop.eq_def]
    simp only [h, dite_false]
    cases data with
    | none => exact Nat.zero_le _
    | some d =>
      by_cases hd : d = ""
      · simp [hd]
      · simp only [hd, if_false]
        cases hval : v d with
        | ok a => simp [hval]
        | error err =>
          simp only [hval]
          exact le_trans
            (extractLoop_verr_calls_le maxR sch v llm (maxR - 1).toNat 1 0 err d d
              (by omega))
            (by omega)

theorem extractLoop_verr_gaveUp (maxR : Int) (sch : String)
    (v : String → Except String Unit) (llm : Nat → String → String)
    (hfail : ∀ k p, ∃ e, v (llm k p) = Except.error e) :
    ∀ (n : Nat) (retries : Int) (calls : Nat) (er w d : String),
      (maxR - retries).toNat ≤ n →
      (extractLoop maxR sch v llm retries calls (WfEvent.validationError er w d)).result =
        "Max retries reached" := by
  intro n
  induction n with
  | zero =>
    intro r c er w d hn
    rw [extractLoop_exhausted maxR sch v llm r c _ (by omega)]
  | succ n ih =>
    intro r c er w d hn
    by_cases h : maxR ≤ r
    · rw [extractLoop_exhausted maxR sch v llm r c _ h]
    · rw [extractLoop.eq_def]
      simp only [h, dite_false]
      obtain ⟨e2, he2⟩ := hfail c (reflectionIterationPrompt d sch w er)
      simp only [he2]
      exact ih (r + 1) (c + 1) e2 _ d (by omega)

theorem reflectionRun_gaveUp_of_allFail (maxR : Int) (sch : String)
    (v : String → Except String Unit) (llm : Nat → String → String)
    (d : String) (hd : d ≠ "") (hseed : ∃ e0, v d = Except.error e0)
    (hfail : ∀ k p, ∃ e, v (llm k p) = Except.error e) :
    (reflectionRun maxR sch v llm (some d)).result = "Max retries reached" := by
  rw [reflectionRun]
  by_cases h : maxR ≤ 0
  · rw [extractLoop_exhausted maxR sch v llm 0 0 _ h]
  · rw [extractLoop.eq_def]
    simp only [h, dite_false]
    obtain ⟨e0, he0⟩ := hseed
    simp only [hd, if_false, he0]
    exact extractLoop_verr_gaveUp maxR sch v llm hfail (maxR - 1).toNat 1 0 e0 d d
      (by omega)

theorem extractLoop_verr_states_le (maxR : Int) (sch : String)
    (v : String → Except String Unit) (llm : Nat → String → String) :
    ∀ (n : Nat) (retries : Int) (calls : Nat) (er w d : String),
      (maxR - retries).toNat ≤ n → retries ≤ maxR →
      ∀ s ∈ (extractLoop maxR sch v llm retries calls
          (WfEvent.validationError er w d)).states, s ≤ maxR := by
  intro n
  induction n with
  | zero =>
    intro r c er w d hn hr
    rw [extractLoop_exhausted maxR sch v llm r c _ (by omega)]
    simp
    omega
  | succ n ih =>
    intro r c er w d hn hr
    by_cases h : maxR ≤ r
    · rw [extractLoop_exhausted maxR sch v llm r c _ h]
      simp
      omega
    · rw [extractLoop.eq_def]
      simp only [h, dite_false]
      cases hval : v (llm c (reflectionIterationPrompt d sch w er)) with
      | ok a =>
        simp [hval]
        omega
      | error e2 =>
        simp only [hval]
        intro s hs
        simp at hs
        rcases hs with rfl | hs
        · omega
        · exact ih (r + 1) (c + 1) e2 _ d (by omega) (by omega) s hs

theorem reflectionRun_states_le (maxR : Int) (sch : String)
    (v : String → Except String Unit) (llm : Nat → String → String)
    (data : Option String) (h0 : 0 ≤ maxR) :
    ∀ s ∈ (reflectionRun maxR sch v llm data).states, s ≤ maxR := by
  rw [reflectionRun]
  by_cases h : maxR ≤ 0
  · rw [extractLoop_exhausted maxR sch v llm 0 0 _ h]
    simp
    omega
  · rw [extractLoop.eq_def]
    simp only [h, dite_false]
    cases data with
    | none =>
      simp
      omega
    | some d =>
      by_cases hd : d = ""
      · simp [hd]
        omega
      · simp only [hd, if_false]
        cases hval : v d with
        | ok a =>
          simp [hval]
          omega
        | error err =>
          simp only [hval]
          intro s hs
          simp at hs
          rcases hs with rfl | hs
          · omega
          · exact extractLoop_verr_states_le maxR sch v llm (maxR - 1).toNat 1 0 err d d
              (by omega) (by omega) s hs

theorem extractLoop_prompts_form (maxR : Int) (sch : String)
    (v : String → Except String Unit) (llm : Nat → String → String) (d0 : String) :
    ∀ (n : Nat) (retries : Int) (calls : Nat) (er w : String),
      (maxR - retries).toNat ≤ n → v w = Except.error er →
      ∀ p ∈ (extractLoop maxR sch v llm retries calls
          (WfEvent.validationError er w d0)).prompts,
        ∃ w2 er2, v w2 = Except.error er2 ∧
          p = reflectionIterationPrompt d0 sch w2 er2 := by
  intro n
  induction n with
  | zero =>
    intro r c er w hn hw p hp
    rw [extractLoop_exhausted maxR sch v llm r c _ (by omega)] at hp
    simp at hp
  | succ n ih =>
    intro r c er w hn hw p hp
    by_cases h : maxR ≤ r
    · rw [extractLoop_exhausted maxR sch v llm r c _ h] at hp
      simp at hp
    · rw [extractLoop.eq_def] at hp
      simp only [h, dite_false] at hp
      cases hval : v (llm c (reflectionIterationPrompt d0 sch w er)) with
      | ok a =>
        simp only [hval] at hp
        simp at hp
        exact ⟨w, er, hw, hp⟩
      | error e2 =>
        simp only [hval] at hp
        simp at hp
        rcases hp with rfl | hp
        · exact ⟨w, er, hw, rfl⟩
        · exact ih (r + 1) (c + 1) e2 _ (by omega) hval p hp

theorem reflectionRun_prompts_form (maxR : Int) (sch : String)
    (v : String → Except String Unit) (llm : Nat → String → String)
    (data : Option String) :
    ∀ p ∈ (reflectionRun maxR sch v llm data).prompts,
      ∃ d0, data = some d0 ∧ ∃ w2 er2, v w2 = Except.error er2 ∧
        p = reflectionIterationPrompt d0 sch w2 er2 := by
  intro p hp
  rw [reflectionRun] at hp
  by_cases h : maxR ≤ 0
  · rw [extractLoop_exhausted maxR sch v llm 0 0 _ h] at hp
    simp at hp
  · rw [extractLoop.eq_def] at hp
    simp only [h, dite_false] at hp
    cases data with
    | none => simp at hp
    | some d0 =>
      by_cases hd : d0 = ""
      · simp [hd] at hp
      · simp only [hd, if_false] at hp
        cases hval : v d0 with
        | ok a => simp [hval] at hp
        | error err =>
          simp only [hval] at hp
          simp at hp
          obtain ⟨w2, er2, hw2, hform⟩ :=
            extractLoop_prompts_form maxR sch v llm d0 (maxR - 1).toNat 1 0 err d0
              (by omega) hval p hp
          exact ⟨d0, rfl, w2, er2, hw2, hform⟩

theorem reflectionRun_no_input (maxR : Int) (sch : String)
    (v : String → Except String Unit) (llm : Nat → String → String)
    (h : 0 < maxR) (data : Option String) (hd : data = none ∨ data = some "") :
    reflectionRun maxR sch v llm data =
      { result := "Please provide some text in input", calls := 0, prompts := [],
        states := [0, 1] } := by
  rcases hd with rfl | rfl <;>
  · rw [reflectionRun, extractLoop.eq_def]
    simp [show ¬maxR ≤ 0 by omega]

theorem reflectionRun_seed_valid (maxR : Int) (sch : String)
    (v : String → Except String Unit) (llm : Nat → String → String)
    (d : String) (h : 0 < maxR) (hd : d ≠ "") (hv : v d = Except.ok ()) :
    reflectionRun maxR sch v llm (some d) =
      { result := d, calls := 0, prompts := [], states := [0, 1] } := by
  rw [reflectionRun, extractLoop.eq_def]
  simp [show ¬maxR ≤ 0 by omega, hd, hv]

theorem reflectionIterationPrompt_contains_wrong (d sch w er : String) :
    containsSub (reflectionIterationPrompt d sch w er) w := by
  refine ⟨EXTRACTION_PROMPT_format d sch ++ REFLECTION_PROMPT_pre,
    REFLECTION_PROMPT_mid ++ er ++ REFLECTION_PROMPT_post, ?_⟩
  simp [reflectionIterationPrompt, REFLECTION_PROMPT_format, String.append_assoc]

theorem reflectionIterationPrompt_contains_error (d sch w er : String) :
    containsSub (reflectionIterationPrompt d sch w er) er := by
  refine ⟨EXTRACTION_PROMPT_format d sch ++ REFLECTION_PROMPT_pre ++ w
      ++ REFLECTION_PROMPT_mid, REFLECTION_PROMPT_post, ?_⟩
  simp [reflectionIterationPrompt, REFLECTION_PROMPT_format, String.append_assoc]

theorem reflectionIterationPrompt_contains_noRepeat (d sch w er : String) :
    containsSub (reflectionIterationPrompt d sch w er) "Do not repeat the schema." := by
  have hsplit : REFLECTION_PROMPT_post =
      "\n\nTry again, the response must contain only valid JSON code. Do not add any sentence before or after the JSON object.\n"
        ++ "Do not repeat the schema." ++ "\n" := by decide
  refine ⟨EXTRACTION_PROMPT_format d sch ++ REFLECTION_PROMPT_pre ++ w
      ++ REFLECTION_PROMPT_mid ++ er
      ++ "\n\nTry again, the response must contain only valid JSON code. Do not add any sentence before or after the JSON object.\n",
    "\n", ?_⟩
  rw [reflectionIterationPrompt, REFLECTION_PROMPT_format, hsplit]
  simp [String.append_assoc]

theorem merge_loop_map {V : Type} (accumulator : Option V → V → V)
    (rs : List (Option V)) :
    ∀ acc, merge_loop accumulator acc (rs.map optToPyVal) =
      Except.ok ((rs.filterMap id).foldl (fun a v => some (accumulator a v)) acc) := by
  induction rs with
  | nil => intro acc; rfl
  | cons r rest ih =>
    intro acc
    cases r with
    | none => simp [optToPyVal, merge_loop, ih]
    | some v => simp [optToPyVal, merge_loop, ih]

theorem merge_outputs_map_eq_spec {V : Type} (accumulator : Option V → V → V)
    (model_dump_json : V → String) (rs : List (Option V)) :
    merge_outputs accumulator model_dump_json (rs.map optToPyVal) =
      Except.ok (specMergeOfResults accumulator model_dump_json rs) := by
  rw [merge_outputs, merge_loop_map, specMergeOfResults]
  cases (rs.filterMap id).foldl (fun a v => some (accumulator a v)) none <;> rfl

theorem gather_outputs_eq {V : Type} (repack : String → List String)
    (validate : String → Except String V) (predict : QaPrompt → String)
    (llm : Nat → String → String) (q sch : String) (chunks : List String) :
    (flatten_list (chunks.map fun c => give_responses (V := V) repack c)).map
        (run_async_task validate predict llm q sch) =
      (((chunks.map repack).flatten).map fun sub =>
        (give_response validate predict llm q sch sub).result).map optToPyVal := by
  simp only [flatten_list, give_responses, List.map_flatten, List.map_map]
  congr 1
  congr 1
  funext c
  simp [List.map_map, Function.comp, run_async_task]

theorem aget_response_eq_spec {V : Type} (repack : String → List String)
    (validate : String → Except String V) (predict : QaPrompt → String)
    (llm : Nat → String → String) (accumulator : Option V → V → V)
    (model_dump_json : V → String) (q sch : String) (chunks : List String) :
    aget_response false repack validate predict llm accumulator model_dump_json q sch chunks =
      Except.ok (specMergeOfResults accumulator model_dump_json
        (((chunks.map repack).flatten).map fun sub =>
          (give_response validate predict llm q sch sub).result)) := by
  rw [aget_response]
  simp only [Bool.false_eq_true, if_false]
  rw [gather_outputs_eq, merge_outputs_map_eq_spec]

/-! ## The claims -/

/-- C1: for every `maxAttempts = N ≥ 0` and every sequence of model outputs
that all fail validation, the reflection loop reaches the `GaveUp` terminal
result ("Max retries reached") having invoked the model at most `N` times,
never `N + 1` times. -/
theorem reflection_budget_bounds_model_calls (N : Int) (hN : 0 ≤ N) (sch : String)
    (v : String → Except String Unit) (llm : Nat → String → String) (d : String)
    (hd : d ≠ "") (hseed : ∃ e0, v d = Except.error e0)
    (hfail : ∀ k p, ∃ e, v (llm k p) = Except.error e) :
    (reflectionRun N sch v llm (some d)).result = "Max retries reached" ∧
    (reflectionRun N sch v llm (some d)).calls ≤ N.toNat :=
  ⟨reflectionRun_gaveUp_of_allFail N sch v llm d hd hseed hfail,
    reflectionRun_calls_le N sch v llm (some d)⟩

theorem reflection_budget_bounds_model_calls_witness :
    (reflectionRun 3 "S" (fun _ => Except.error "bad") (fun _ _ => "o")
      (some "seed")).result = "Max retries reached" ∧
    (reflectionRun 3 "S" (fun _ => Except.error "bad") (fun _ _ => "o")
      (some "seed")).calls ≤ (3 : Int).toNat :=
  reflection_budget_bounds_model_calls 3 (by decide) "S" (fun _ => Except.error "bad")
    (fun _ _ => "o") "seed" (by decide) ⟨"bad", rfl⟩ (fun _ _ => ⟨"bad", rfl⟩)

/-- C2 (counterexample): a run whose first candidate passes validation makes
zero model calls, not exactly one — the `StartEvent` branch of `extract`
returns `ExtractionDone(output=data, data=data)` without calling the model. -/
theorem first_attempt_model_call_counterexample :
    (reflectionRun 3 "S" (fun s => if s = "OK" then Except.ok () else Except.error "bad")
      (fun _ _ => "") (some "OK")).calls ≠ 1 := by
  rw [reflectionRun_seed_valid 3 "S" _ _ "OK" (by decide) (by decide) (by simp)]
  decide

/-- C2 (amended): for every non-empty input whose first candidate output
passes schema validation, the loop invokes the model exactly zero times (the
seeded data itself is the first candidate) and runs a single extract step
followed by a successful validate step, succeeding with the candidate as
result. -/
theorem first_valid_attempt_zero_model_calls (maxR : Int) (h : 0 < maxR)
    (sch : String) (v : String → Except String Unit) (llm : Nat → String → String)
    (d : String) (hd : d ≠ "") (hv : v d = Except.ok ()) :
    reflectionRun maxR sch v llm (some d) =
      { result := d, calls := 0, prompts := [], states := [0, 1] } :=
  reflectionRun_seed_valid maxR sch v llm d h hd hv

theorem first_valid_attempt_zero_model_calls_witness :
    reflectionRun 3 "S" (fun s => if s = "OK" then Except.ok () else Except.error "bad")
      (fun _ _ => "") (some "OK") =
      { result := "OK", calls := 0, prompts := [], states := [0, 1] } :=
  first_valid_attempt_zero_model_calls 3 (by decide) "S" _ _ "OK" (by decide) (by simp)

/-- C7 (counterexample): called with absent context text but
`max_retries = 0`, the loop returns "Max retries reached", not the "no
input" outcome — the retries check precedes the empty-input check. -/
theorem no_input_outcome_counterexample :
    (reflectionRun 0 "S" (fun _ => Except.error "bad") (fun _ _ => "")
      none).result ≠ "Please provide some text in input" := by
  rw [reflectionRun, extractLoop_exhausted 0 "S" _ _ 0 0 _ (by decide)]
  decide

/-- C7 (amended): provided `maxAttempts ≥ 1`, every call with empty or
absent context text returns the distinct "no input" terminal outcome with
zero model invocations and no prompt sent. -/
theorem no_input_short_circuit (maxR : Int) (h : 0 < maxR) (sch : String)
    (v : String → Except String Unit) (llm : Nat → String → String)
    (data : Option String) (hd : data = none ∨ data = some "") :
    (reflectionRun maxR sch v llm data).result = "Please provide some text in input" ∧
    (reflectionRun maxR sch v llm data).calls = 0 ∧
    (reflectionRun maxR sch v llm data).prompts = [] := by
  rw [reflectionRun_no_input maxR sch v llm h data hd]
  exact ⟨rfl, rfl, rfl⟩

theorem no_input_short_circuit_witness :
    (reflectionRun 3 "S" (fun _ => Except.error "bad") (fun _ _ => "o")
      none).result = "Please provide some text in input" ∧
    (reflectionRun 3 "S" (fun _ => Except.error "bad") (fun _ _ => "o")
      none).calls = 0 ∧
    (reflectionRun 3 "S" (fun _ => Except.error "bad") (fun _ _ => "o")
      none).prompts = [] :=
  no_input_short_circuit 3 (by decide) "S" _ _ none (Or.inl rfl)

/-- C9 (counterexample): with a negative `max_retries` the invariant
`attemptsUsed ≤ maxAttempts` fails in the initial reachable state
(`retries = 0 > maxAttempts`). -/
theorem budget_invariant_counterexample :
    ¬ (∀ s ∈ (reflectionRun (-1) "S" (fun _ => Except.error "bad") (fun _ _ => "")
        (some "d")).states, s ≤ (-1 : Int)) := by
  rw [reflectionRun, extractLoop_exhausted (-1) "S" _ _ 0 0 _ (by decide)]
  simp

/-- C9 (amended): provided `maxAttempts ≥ 0`, every value the retries
counter takes in a run satisfies `attemptsUsed ≤ maxAttempts`, and the loop
stops at "Max retries reached" the instant an extract step starts with
`attemptsUsed ≥ maxAttempts`, without any further model call or prompt. -/
theorem budget_invariant (maxR : Int) (hN : 0 ≤ maxR) (sch : String)
    (v : String → Except String Unit) (llm : Nat → String → String)
    (data : Option String) :
    (∀ s ∈ (reflectionRun maxR sch v llm data).states, s ≤ maxR) ∧
    (∀ (retries : Int) (calls : Nat) (ev : WfEvent), maxR ≤ retries →
      extractLoop maxR sch v llm retries calls ev =
        { result := "Max retries reached", calls := 0, prompts := [],
          states := [retries] }) :=
  ⟨reflectionRun_states_le maxR sch v llm data hN,
    fun r c ev h => extractLoop_exhausted maxR sch v llm r c ev h⟩

theorem budget_invariant_witness :
    extractLoop 2 "S" (fun _ => Except.error "bad") (fun _ _ => "o") 2 0
        (WfEvent.startEvent none) =
      { result := "Max retries reached", calls := 0, prompts := [], states := [2] } :=
  (budget_invariant 2 (by decide) "S" (fun _ => Except.error "bad") (fun _ _ => "o")
    none).2 2 0 (WfEvent.startEvent none) (by decide)

/-- C6: every prompt the reflection loop sends to the model (each one sent
from an iteration reached via a validation failure) embeds the prior
failing output and the validation error text, and carries the instruction
"Do not repeat the schema.". -/
theorem retry_prompt_embeds_failure (maxR : Int) (sch : String)
    (v : String → Except String Unit) (llm : Nat → String → String)
    (data : Option String) (p : String)
    (hp : p ∈ (reflectionRun maxR sch v llm data).prompts) :
    ∃ w er, v w = Except.error er ∧ containsSub p w ∧ containsSub p er ∧
      containsSub p "Do not repeat the schema." := by
  obtain ⟨d0, -, w2, er2, hw2, rfl⟩ :=
    reflectionRun_prompts_form maxR sch v llm data p hp
  exact ⟨w2, er2, hw2, reflectionIterationPrompt_contains_wrong d0 sch w2 er2,
    reflectionIterationPrompt_contains_error d0 sch w2 er2,
    reflectionIterationPrompt_contains_noRepeat d0 sch w2 er2⟩

theorem retry_prompt_embeds_failure_witness :
    ∃ w er, (fun s => if s = "G" then Except.ok () else Except.error "bad") w =
        Except.error er ∧
      containsSub (reflectionIterationPrompt "raw" "S" "raw" "bad") w ∧
      containsSub (reflectionIterationPrompt "raw" "S" "raw" "bad") er ∧
      containsSub (reflectionIterationPrompt "raw" "S" "raw" "bad")
        "Do not repeat the schema." :=
  retry_prompt_embeds_failure 3 "S"
    (fun s => if s = "G" then Except.ok () else Except.error "bad")
    (fun _ _ => "G") (some "raw") (reflectionIterationPrompt "raw" "S" "raw" "bad")
    (by simp [reflectionRun, extractLoop])

/-- C3 (code bug, demonstrated): with `use_async = False` (sequential mode)
`get_response` never awaits the `_give_response` coroutines — `run_async_tasks`
is skipped — so `_merge_outputs` receives un-awaited coroutine objects and
the accumulator call is a runtime type error, while `aget_response` (and
`get_response` with `use_async = True`) evaluates every repacked chunk once
and returns the merged serialized aggregate. -/
theorem sequential_mode_diverges_from_async :
    get_response (V := Unit) false false (fun c => [c]) (fun _ => Except.ok ())
        (fun _ => "out") (fun _ _ => "") (fun _ _ => ()) (fun _ => "AGG") "q" "S"
        ["c1"] =
      Except.error "TypeError: the accumulator received an un-awaited coroutine object" ∧
    aget_response (V := Unit) false (fun c => [c]) (fun _ => Except.ok ())
        (fun _ => "out") (fun _ _ => "") (fun _ _ => ()) (fun _ => "AGG") "q" "S"
        ["c1"] =
      Except.ok "AGG" ∧
    get_response (V := Unit) true false (fun c => [c]) (fun _ => Except.ok ())
        (fun _ => "out") (fun _ _ => "") (fun _ _ => ()) (fun _ => "AGG") "q" "S"
        ["c1"] =
      Except.ok "AGG" :=
  ⟨rfl, rfl, rfl⟩

/-- C4: the synthesizer's output is the serialization of the left-to-right
fold, in original chunk order, of the non-null per-chunk results through the
caller-supplied merge function starting from a null accumulator, and the
empty fold set (all results null, or no chunks) yields the empty string:
`_merge_outputs` agrees with the spec-worded `specMergeOfResults` on every
result list, and `aget_response` (whose `asyncio.gather` returns results in
task order) is that fold over the per-chunk results in chunk order. -/
theorem accumulate_merge_matches_spec_fold {V : Type}
    (accumulator : Option V → V → V) (model_dump_json : V → String) :
    (∀ rs : List (Option V),
      merge_outputs accumulator model_dump_json (rs.map optToPyVal) =
        Except.ok (specMergeOfResults accumulator model_dump_json rs)) ∧
    (∀ (repack : String → List String) (validate : String → Except String V)
        (predict : QaPrompt → String) (llm : Nat → String → String)
        (q sch : String) (chunks : List String),
      aget_response false repack validate predict llm accumulator model_dump_json
          q sch chunks =
        Except.ok (specMergeOfResults accumulator model_dump_json
          (((chunks.map repack).flatten).map fun sub =>
            (give_response validate predict llm q sch sub).result))) :=
  ⟨fun rs => merge_outputs_map_eq_spec accumulator model_dump_json rs,
    fun repack validate predict llm q sch chunks =>
      aget_response_eq_spec repack validate predict llm accumulator model_dump_json
        q sch chunks⟩

/-- C5: per chunk, `_give_response` sends exactly one prompt through the
predictor; if the raw output validates it returns that value directly with
no reflection run; otherwise it runs the reflection workflow on a fresh
instance (default budget 3, retries starting at 0) seeded with
`data = raw output`, and returns the workflow result revalidated — a value
on success, `none` otherwise. -/
theorem chunk_responder_structure {V : Type} (validate : String → Except String V)
    (predict : QaPrompt → String) (llm : Nat → String → String)
    (q sch ch : String) :
    (give_response validate predict llm q sch ch).chunkPrompts =
      [mkQaPrompt q sch ch] ∧
    (∀ v, validate (predict (mkQaPrompt q sch ch)) = Except.ok v →
      give_response validate predict llm q sch ch =
        { result := some v, chunkPrompts := [mkQaPrompt q sch ch],
          wfData := none, wfTrace := none }) ∧
    (∀ e, validate (predict (mkQaPrompt q sch ch)) = Except.error e →
      (give_response validate predict llm q sch ch).wfData =
        some (predict (mkQaPrompt q sch ch)) ∧
      (give_response validate predict llm q sch ch).wfTrace =
        some (reflectionRun 3 sch (unitValidate validate) llm
          (some (predict (mkQaPrompt q sch ch)))) ∧
      (give_response validate predict llm q sch ch).result =
        (match validate (reflectionRun 3 sch (unitValidate validate) llm
            (some (predict (mkQaPrompt q sch ch)))).result with
          | Except.ok v => some v
          | Except.error _ => none)) := by
  refine ⟨?_, ?_, ?_⟩
  · rw [give_response]
    cases hv1 : validate (predict (mkQaPrompt q sch ch)) with
    | ok v => simp [hv1]
    | error e =>
      simp only [hv1]
      cases hres : validate (reflectionRun 3 sch (unitValidate validate) llm
          (some (predict (mkQaPrompt q sch ch)))).result <;>
        simp [hres]
  · intro v hv
    rw [give_response]
    simp only [hv]
  · intro e he
    rw [give_response]
    simp only [he]
    cases hres : validate (reflectionRun 3 sch (unitValidate validate) llm
        (some (predict (mkQaPrompt q sch ch)))).result <;>
      simp [hres]

theorem chunk_responder_structure_witness :
    give_response (V := Unit) (fun _ => Except.ok ()) (fun _ => "o") (fun _ _ => "x")
        "q" "S" "ch" =
      { result := some (), chunkPrompts := [mkQaPrompt "q" "S" "ch"],
        wfData := none, wfTrace := none } ∧
    (give_response (V := Unit) (fun _ => Except.error "bad") (fun _ => "o")
        (fun _ _ => "x") "q" "S" "ch").wfData = some "o" :=
  ⟨(chunk_responder_structure (fun _ => Except.ok ()) (fun _ => "o") (fun _ _ => "x")
      "q" "S" "ch").2.1 () rfl,
    ((chunk_responder_structure (fun _ => Except.error "bad") (fun _ => "o")
      (fun _ _ => "x") "q" "S" "ch").2.2 "bad" rfl).1⟩

/-- C8: in every run where the reflection workflow exhausts its budget
(terminal result "Max retries reached", which does not validate as it is
not JSON), `_give_response` surfaces `none` for the chunk — a total
function result, not an exception. -/
theorem gaveup_surfaces_null {V : Type} (validate : String → Except String V)
    (predict : QaPrompt → String) (llm : Nat → String → String)
    (q sch ch : String) (e0 : String)
    (hraw : validate (predict (mkQaPrompt q sch ch)) = Except.error e0)
    (hGaveUp : (reflectionRun 3 sch (unitValidate validate) llm
        (some (predict (mkQaPrompt q sch ch)))).result = "Max retries reached")
    (hsent : ∃ e1, validate "Max retries reached" = Except.error e1) :
    (give_response validate predict llm q sch ch).result = none := by
  obtain ⟨e1, he1⟩ := hsent
  rw [give_response]
  simp only [hraw, hGaveUp, he1]

theorem gaveup_surfaces_null_witness :
    (give_response (V := Unit) (fun _ => Except.error "bad") (fun _ => "raw")
        (fun _ _ => "o") "q" "S" "c").result = none :=
  gaveup_surfaces_null (fun _ => Except.error "bad") (fun _ => "raw")
    (fun _ _ => "o") "q" "S" "c" "bad" rfl
    (by simp [reflectionRun, extractLoop, unitValidate, Except.map]) ⟨"bad", rfl⟩

theorem reflectionIterationPrompt_contains_data (d sch w er : String) :
    containsSub (reflectionIterationPrompt d sch w er) d := by
  refine ⟨EXTRACTION_PROMPT_pre,
    EXTRACTION_PROMPT_mid ++ sch ++ "\n" ++ REFLECTION_PROMPT_format w er, ?_⟩
  simp [reflectionIterationPrompt, EXTRACTION_PROMPT_format, String.append_assoc]

/-- C10: when `_give_response` escalates a failed validation, the failed
model output itself is the reflection workflow's `data`: every extraction
prompt built during reflection embeds that failed output as the context
information, and each such prompt is exactly
`EXTRACTION_PROMPT(data=failed output, schema) ++ REFLECTION_PROMPT(w, e)`
for some failing prior output `w` and error `e` — the original chunk text
appears in no slot of any reflection-loop prompt. -/
theorem reflection_context_is_failed_output {V : Type}
    (validate : String → Except String V) (predict : QaPrompt → String)
    (llm : Nat → String → String) (q sch ch e0 : String)
    (hraw : validate (predict (mkQaPrompt q sch ch)) = Except.error e0)
    (t : WfTrace)
    (ht : (give_response validate predict llm q sch ch).wfTrace = some t)
    (p : String) (hp : p ∈ t.prompts) :
    (give_response validate predict llm q sch ch).wfData =
      some (predict (mkQaPrompt q sch ch)) ∧
    containsSub p (predict (mkQaPrompt q sch ch)) ∧
    ∃ w er, unitValidate validate w = Except.error er ∧
      p = reflectionIterationPrompt (predict (mkQaPrompt q sch ch)) sch w er := by
  have hwf : t = reflectionRun 3 sch (unitValidate validate) llm
      (some (predict (mkQaPrompt q sch ch))) := by
    rw [give_response] at ht
    simp only [hraw] at ht
    cases hres : validate (reflectionRun 3 sch (unitValidate validate) llm
        (some (predict (mkQaPrompt q sch ch)))).result <;>
      · simp [hres] at ht
        exact Eq.symm ht
  have hdata : (give_response validate predict llm q sch ch).wfData =
      some (predict (mkQaPrompt q sch ch)) := by
    rw [give_response]
    simp only [hraw]
    cases hres : validate (reflectionRun 3 sch (unitValidate validate) llm
        (some (predict (mkQaPrompt q sch ch)))).result <;>
      simp [hres]
  subst hwf
  obtain ⟨d0, hd0, w2, er2, hw2, rfl⟩ :=
    reflectionRun_prompts_form 3 sch (unitValidate validate) llm _ p hp
  obtain rfl : d0 = predict (mkQaPrompt q sch ch) := Eq.symm (Option.some.inj hd0)
  exact ⟨hdata,
    reflectionIterationPrompt_contains_data (predict (mkQaPrompt q sch ch)) sch w2 er2,
    w2, er2, hw2, rfl⟩

theorem reflection_context_is_failed_output_witness :
    (give_response (V := Unit)
        (fun s => if s = "G" then Except.ok () else Except.error "bad")
        (fun _ => "raw") (fun _ _ => "G") "q" "S" "c").wfData = some "raw" ∧
    containsSub (reflectionIterationPrompt "raw" "S" "raw" "bad") "raw" ∧
    ∃ w er, unitValidate
        (fun s => if s = "G" then Except.ok () else Except.error ("bad" : String)) w =
          Except.error er ∧
      reflectionIterationPrompt "raw" "S" "raw" "bad" =
        reflectionIterationPrompt "raw" "S" w er := by
  have hrun : reflectionRun 3 "S"
      (unitValidate (V := Unit)
        (fun s => if s = "G" then Except.ok () else Except.error "bad"))
      (fun _ _ => "G") (some "raw") =
      { result := "G", calls := 1,
        prompts := [reflectionIterationPrompt "raw" "S" "raw" "bad"],
        states := [0, 1, 2] } := by
    simp [reflectionRun, extractLoop, unitValidate, Except.map]
  exact reflection_context_is_failed_output
    (fun s => if s = "G" then Except.ok () else Except.error "bad")
    (fun _ => "raw") (fun _ _ => "G") "q" "S" "c" "bad" rfl
    (reflectionRun 3 "S"
      (unitValidate (fun s => if s = "G" then Except.ok () else Except.error "bad"))
      (fun _ _ => "G") (some "raw"))
    (by rw [give_response]; simp [hrun])
    (reflectionIterationPrompt "raw" "S" "raw" "bad")
    (by rw [hrun]; simp)
